import Mathlib

/-! JServer, `src/native/win32/SystemInfo.cpp`.

A shallow embedding of the two functions of the Win32 native library of
`com.teletalk.jserver.util.SystemInfo`:

* `DllMain`, the library entry point;
* `Java_com_teletalk_jserver_util_SystemInfo_getDiskFreeSpaceNative`, the JNI
  function behind `SystemInfo.getDiskFreeSpaceNative(String)`.

The JNI environment (`GetStringUTFChars`) and the Win32 call
(`GetDiskFreeSpaceEx`) are external to the library, so they are parameters of
the model.  The effects of the calls that the function makes are recorded in an
explicit `World` that is passed through.
-/

namespace JServer

/-! ## Data model -/

/-- The JNI type `jlong`: a signed 64-bit integer, here an `Int` that the
functions below keep inside `[-2^63, 2^63)`. -/
abbrev jlong := Int

/-- The Win32 type `LPSTR`, when non-NULL: the characters of a C string. -/
abbrev LPSTR := String

/-- The JNI type `jstring`: a reference to a `java.lang.String`, `none` being
the null reference. -/
abbrev jstring := Option String

/-- The Win32 type `ULARGE_INTEGER`; `QuadPart` is its unsigned 64-bit view. -/
structure ULARGE_INTEGER where
  QuadPart : Nat
deriving DecidableEq, Repr

/-- The part of `JNIEnv` that the library uses.  `GetStringUTFChars` yields
`none` for the C value `NULL` (the characters could not be obtained). -/
structure JNIEnv where
  GetStringUTFChars : jstring → Option LPSTR

/-- What one call of `GetDiskFreeSpaceEx` leaves behind: its `BOOL` result and
the contents of the three output buffers after the call (on failure these are
whatever the buffers hold, the locals being uninitialised before the call). -/
structure DiskFreeSpace where
  result : Int
  freeBytesAvailable : ULARGE_INTEGER
  totalNumberOfBytes : ULARGE_INTEGER
  totalNumberOfFreeBytes : ULARGE_INTEGER
deriving DecidableEq, Repr

/-- The operating system as seen by the library: the answer of
`GetDiskFreeSpaceEx` for each directory name. -/
abbrev Win32 := LPSTR → DiskFreeSpace

/-- The observable state around a call.  `utfBuffers` counts the buffers
obtained with `GetStringUTFChars` and not yet given back with
`ReleaseStringUTFChars`; `diskQueries` lists the directory names passed to
`GetDiskFreeSpaceEx` so far, oldest first. -/
structure World where
  utfBuffers : Nat
  diskQueries : List LPSTR
deriving DecidableEq, Repr

/-- The Win32 constant `TRUE`. -/
def TRUE : Int := 1

/-! ## Machine arithmetic -/

/-- Conversion of an unsigned 64-bit value to `jlong` (`__int64`), as performed
by `return totalNumberOfFreeBytes.QuadPart;`: the 64 bits are kept and read as
two's complement. -/
def toJlong (q : Nat) : jlong :=
  if q % 2 ^ 64 < 2 ^ 63 then ((q % 2 ^ 64 : Nat) : Int)
  else ((q % 2 ^ 64 : Nat) : Int) - 2 ^ 64

/-! ## External calls, with their effect on the `World` -/

/-- The call `env->GetStringUTFChars(path, NULL)`: a non-NULL answer is a buffer
that the caller now holds. -/
def GetStringUTFChars (env : JNIEnv) (path : jstring) (w : World) :
    Option LPSTR × World :=
  match env.GetStringUTFChars path with
  | some chars => (some chars, ⟨w.utfBuffers + 1, w.diskQueries⟩)
  | none => (none, w)

/-- The call `GetDiskFreeSpaceEx(diskPath, &a, &t, &f)`: the query is logged and
the operating system answers. -/
def GetDiskFreeSpaceEx (os : Win32) (diskPath : LPSTR) (w : World) :
    DiskFreeSpace × World :=
  (os diskPath, ⟨w.utfBuffers, w.diskQueries ++ [diskPath]⟩)

/-! ## The library -/

/-- The function `DllMain(hModule, ul_reason_for_call, lpReserved)`: the body is
`return TRUE;`. -/
def DllMain (_hModule : Nat) (_ul_reason_for_call : Nat) (_lpReserved : Nat)
    (w : World) : Int × World :=
  (TRUE, w)

/-- The function
`Java_com_teletalk_jserver_util_SystemInfo_getDiskFreeSpaceNative(env, cls, path)`.
The result is the returned `jlong` and the `World` after the call. -/
def Java_com_teletalk_jserver_util_SystemInfo_getDiskFreeSpaceNative
    (env : JNIEnv) (os : Win32) (path : jstring) (w : World) : jlong × World :=
  match GetStringUTFChars env path w with
  | (some diskPath, w1) =>
    match GetDiskFreeSpaceEx os diskPath w1 with
    | (r, w2) =>
      if r.result ≠ 0 then
        (toJlong r.totalNumberOfFreeBytes.QuadPart, w2)
      else
        (-1, w2)
  | (none, w1) => (-1, w1)

/-! ## Concrete surroundings used in the examples -/

/-- A JNI environment in which the characters of every non-null string are
obtained and the null reference gives `NULL`. -/
def plainEnv : JNIEnv := ⟨fun s => s⟩

/-- An operating system whose query succeeds for every directory name,
reporting the given three figures. -/
def reporting (a t f : Nat) : Win32 := fun _ => ⟨1, ⟨a⟩, ⟨t⟩, ⟨f⟩⟩

/-- An operating system whose query fails for every directory name, leaving the
given three figures in the buffers. -/
def failing (a t f : Nat) : Win32 := fun _ => ⟨0, ⟨a⟩, ⟨t⟩, ⟨f⟩⟩

/-- A `World` with no buffer held and no query made. -/
def World.fresh : World := ⟨0, []⟩

/-! ## Helper lemmas -/

theorem toJlong_of_lt {q : Nat} (h : q < 2 ^ 63) : toJlong q = (q : Int) := by
  have h64 : q % 2 ^ 64 = q := Nat.mod_eq_of_lt (by omega)
  unfold toJlong
  rw [h64, if_pos h]

theorem toJlong_of_ge {q : Nat} (h : 2 ^ 63 ≤ q) (h64 : q < 2 ^ 64) :
    toJlong q = (q : Int) - 2 ^ 64 := by
  have hm : q % 2 ^ 64 = q := Nat.mod_eq_of_lt h64
  unfold toJlong
  rw [hm, if_neg (by omega)]

/-- The call when the characters are not obtained. -/
theorem call_of_null {env : JNIEnv} {path : jstring}
    (h : env.GetStringUTFChars path = none) (os : Win32) (w : World) :
    Java_com_teletalk_jserver_util_SystemInfo_getDiskFreeSpaceNative env os path w
      = (-1, w) := by
  simp [Java_com_teletalk_jserver_util_SystemInfo_getDiskFreeSpaceNative,
    GetStringUTFChars, h]

/-- The call when the characters are obtained and the query fails. -/
theorem call_of_failure {env : JNIEnv} {path : jstring} {p : LPSTR}
    (h : env.GetStringUTFChars path = some p) {os : Win32}
    (hr : (os p).result = 0) (w : World) :
    Java_com_teletalk_jserver_util_SystemInfo_getDiskFreeSpaceNative env os path w
      = (-1, ⟨w.utfBuffers + 1, w.diskQueries ++ [p]⟩) := by
  simp [Java_com_teletalk_jserver_util_SystemInfo_getDiskFreeSpaceNative,
    GetStringUTFChars, GetDiskFreeSpaceEx, h, hr]

/-- The call when the characters are obtained and the query succeeds. -/
theorem call_of_success {env : JNIEnv} {path : jstring} {p : LPSTR}
    (h : env.GetStringUTFChars path = some p) {os : Win32}
    (hr : (os p).result ≠ 0) (w : World) :
    Java_com_teletalk_jserver_util_SystemInfo_getDiskFreeSpaceNative env os path w
      = (toJlong (os p).totalNumberOfFreeBytes.QuadPart,
          ⟨w.utfBuffers + 1, w.diskQueries ++ [p]⟩) := by
  simp [Java_com_teletalk_jserver_util_SystemInfo_getDiskFreeSpaceNative,
    GetStringUTFChars, GetDiskFreeSpaceEx, h, hr]

theorem toJlong_nonneg_of_lt {q : Nat} (h : q < 2 ^ 63) : (0 : Int) ≤ toJlong q := by
  rw [toJlong_of_lt h]
  exact Int.ofNat_nonneg q

/-- The value returned when the characters are not obtained. -/
theorem ret_of_null {env : JNIEnv} {path : jstring}
    (h : env.GetStringUTFChars path = none) (os : Win32) (w : World) :
    (Java_com_teletalk_jserver_util_SystemInfo_getDiskFreeSpaceNative env os path w).1
      = (-1 : Int) := by
  rw [call_of_null h os w]

/-- The value returned when the characters are obtained and the query fails. -/
theorem ret_of_failure {env : JNIEnv} {path : jstring} {p : LPSTR}
    (h : env.GetStringUTFChars path = some p) {os : Win32}
    (hr : (os p).result = 0) (w : World) :
    (Java_com_teletalk_jserver_util_SystemInfo_getDiskFreeSpaceNative env os path w).1
      = (-1 : Int) := by
  rw [call_of_failure h hr w]

/-- The value returned when the characters are obtained and the query
succeeds. -/
theorem ret_of_success {env : JNIEnv} {path : jstring} {p : LPSTR}
    (h : env.GetStringUTFChars path = some p) {os : Win32}
    (hr : (os p).result ≠ 0) (w : World) :
    (Java_com_teletalk_jserver_util_SystemInfo_getDiskFreeSpaceNative env os path w).1
      = toJlong (os p).totalNumberOfFreeBytes.QuadPart := by
  rw [call_of_success h hr w]

/-! ## The claims -/

/-- C1, as amended: when the characters of the path are obtained and
`GetDiskFreeSpaceEx` succeeds reporting `freeBytesAvailable = A`,
`totalNumberOfBytes = T` and `totalNumberOfFreeBytes = F` with `F < 2^63`, the
function returns exactly `F`, whatever `A` and `T` are; in particular it does
not return `A` when `A` differs from `F`. -/
theorem getDiskFreeSpaceNative_returns_total_free
    (env : JNIEnv) (os : Win32) (path : jstring) (w : World) (p : LPSTR)
    (res : Int) (A T F : Nat)
    (hpath : env.GetStringUTFChars path = some p)
    (hos : os p = ⟨res, ⟨A⟩, ⟨T⟩, ⟨F⟩⟩) (hres : res ≠ 0) (hF : F < 2 ^ 63) :
    (Java_com_teletalk_jserver_util_SystemInfo_getDiskFreeSpaceNative env os path w).1
        = (F : Int)
      ∧ (A ≠ F →
          (Java_com_teletalk_jserver_util_SystemInfo_getDiskFreeSpaceNative env os path w).1
            ≠ (A : Int)) := by
  have hr : (os p).result ≠ 0 := by rw [hos]; exact hres
  have hret :
      (Java_com_teletalk_jserver_util_SystemInfo_getDiskFreeSpaceNative env os path w).1
        = (F : Int) := by
    rw [call_of_success hpath hr w, hos]
    exact toJlong_of_lt hF
  refine ⟨hret, fun hAF => ?_⟩
  rw [hret]
  intro h
  exact hAF (Int.ofNat_inj.mp h).symm

/-- Witness for C1: a volume reporting 100 bytes available to the caller, 1000
bytes in all and 250 bytes free gives 250. -/
theorem getDiskFreeSpaceNative_returns_total_free_witness :
    (Java_com_teletalk_jserver_util_SystemInfo_getDiskFreeSpaceNative plainEnv
        (reporting 100 1000 250) (some "D:/data") World.fresh).1 = ((250 : Nat) : Int)
      ∧ ((100 : Nat) ≠ 250 →
          (Java_com_teletalk_jserver_util_SystemInfo_getDiskFreeSpaceNative plainEnv
            (reporting 100 1000 250) (some "D:/data") World.fresh).1 ≠ ((100 : Nat) : Int)) :=
  getDiskFreeSpaceNative_returns_total_free plainEnv (reporting 100 1000 250)
    (some "D:/data") World.fresh "D:/data" 1 100 1000 250 rfl rfl (by decide) (by decide)

/-- Counterexample to C1 as stated: the query succeeds with three unsigned
64-bit figures, `totalNumberOfFreeBytes = 2^63`, and the function returns
`-2^63`, which is not `2^63`. -/
theorem getDiskFreeSpaceNative_large_total_free_not_returned :
    plainEnv.GetStringUTFChars (some "D:/data") = some "D:/data"
      ∧ (reporting (2 ^ 63) (2 ^ 64 - 1) (2 ^ 63) "D:/data").result ≠ 0
      ∧ 2 ^ 63 < 2 ^ 64 ∧ 2 ^ 64 - 1 < 2 ^ 64
      ∧ (Java_com_teletalk_jserver_util_SystemInfo_getDiskFreeSpaceNative plainEnv
          (reporting (2 ^ 63) (2 ^ 64 - 1) (2 ^ 63)) (some "D:/data") World.fresh).1
          = -9223372036854775808
      ∧ (Java_com_teletalk_jserver_util_SystemInfo_getDiskFreeSpaceNative plainEnv
          (reporting (2 ^ 63) (2 ^ 64 - 1) (2 ^ 63)) (some "D:/data") World.fresh).1
          ≠ ((2 ^ 63 : Nat) : Int) := by
  refine ⟨rfl, by decide, by decide, by decide, by decide, by decide⟩

/-- C2: when `GetStringUTFChars` yields `NULL`, the function returns `-1`
whatever the operating system would answer, and `GetDiskFreeSpaceEx` is not
called: the list of queries made is the one from before the call. -/
theorem getDiskFreeSpaceNative_null_path
    (env : JNIEnv) (os : Win32) (path : jstring) (w : World)
    (hpath : env.GetStringUTFChars path = none) :
    (Java_com_teletalk_jserver_util_SystemInfo_getDiskFreeSpaceNative env os path w).1 = -1
      ∧ (Java_com_teletalk_jserver_util_SystemInfo_getDiskFreeSpaceNative env os path w).2.diskQueries
          = w.diskQueries := by
  rw [call_of_null hpath os w]
  exact ⟨rfl, rfl⟩

/-- Witness for C2: the null reference, on a system whose query would
succeed. -/
theorem getDiskFreeSpaceNative_null_path_witness :
    (Java_com_teletalk_jserver_util_SystemInfo_getDiskFreeSpaceNative plainEnv
        (reporting 100 1000 250) none World.fresh).1 = -1
      ∧ (Java_com_teletalk_jserver_util_SystemInfo_getDiskFreeSpaceNative plainEnv
          (reporting 100 1000 250) none World.fresh).2.diskQueries
          = World.fresh.diskQueries :=
  getDiskFreeSpaceNative_null_path plainEnv (reporting 100 1000 250) none World.fresh rfl

/-- C3: when the characters of the path are obtained and `GetDiskFreeSpaceEx`
returns 0, the function returns `-1`, whatever the path and whatever the three
output buffers hold. -/
theorem getDiskFreeSpaceNative_query_failure
    (env : JNIEnv) (os : Win32) (path : jstring) (w : World) (p : LPSTR)
    (A T F : ULARGE_INTEGER)
    (hpath : env.GetStringUTFChars path = some p)
    (hos : os p = ⟨0, A, T, F⟩) :
    (Java_com_teletalk_jserver_util_SystemInfo_getDiskFreeSpaceNative env os path w).1
      = -1 := by
  have hr : (os p).result = 0 := by rw [hos]
  rw [call_of_failure hpath hr w]

/-- Witness for C3: a failing query that leaves 7, 8 and 9 in the buffers. -/
theorem getDiskFreeSpaceNative_query_failure_witness :
    (Java_com_teletalk_jserver_util_SystemInfo_getDiskFreeSpaceNative plainEnv
        (failing 7 8 9) (some "Z:/doesnotexist/") World.fresh).1 = -1 :=
  getDiskFreeSpaceNative_query_failure plainEnv (failing 7 8 9)
    (some "Z:/doesnotexist/") World.fresh "Z:/doesnotexist/" ⟨7⟩ ⟨8⟩ ⟨9⟩ rfl rfl

/-- C4, as amended: for every input and every response of the operating system
in which a successful query reports `totalNumberOfFreeBytes` below `2^63` or
equal to `2^64 - 1` (failures being unrestricted), the returned value is never
less than `-1`. -/
theorem getDiskFreeSpaceNative_ge_neg_one
    (env : JNIEnv) (os : Win32) (path : jstring) (w : World)
    (hF : ∀ p, env.GetStringUTFChars path = some p → (os p).result ≠ 0 →
      (os p).totalNumberOfFreeBytes.QuadPart < 2 ^ 63
        ∨ (os p).totalNumberOfFreeBytes.QuadPart = 2 ^ 64 - 1) :
    -1 ≤ (Java_com_teletalk_jserver_util_SystemInfo_getDiskFreeSpaceNative env os path w).1 := by
  cases hpath : env.GetStringUTFChars path with
  | none =>
    rw [ret_of_null hpath os w]
  | some p =>
    by_cases hr : (os p).result = 0
    · rw [ret_of_failure hpath hr w]
    · rw [ret_of_success hpath hr w]
      rcases hF p hpath hr with h | h
      · exact le_trans (by decide) (toJlong_nonneg_of_lt h)
      · rw [h]
        decide

/-- Witness for C4: a successful query reporting `2^64 - 1` free bytes. -/
theorem getDiskFreeSpaceNative_ge_neg_one_witness :
    -1 ≤ (Java_com_teletalk_jserver_util_SystemInfo_getDiskFreeSpaceNative plainEnv
      (reporting 100 (2 ^ 64 - 1) (2 ^ 64 - 1)) (some "D:/data") World.fresh).1 :=
  getDiskFreeSpaceNative_ge_neg_one plainEnv (reporting 100 (2 ^ 64 - 1) (2 ^ 64 - 1))
    (some "D:/data") World.fresh (fun _ _ _ => Or.inr rfl)

/-- Counterexample to C4 as stated: a successful query reporting the unsigned
64-bit figure `2^63` as `totalNumberOfFreeBytes` makes the function return
`-2^63`, which is less than `-1`. -/
theorem getDiskFreeSpaceNative_below_neg_one :
    (reporting 0 (2 ^ 64 - 1) (2 ^ 63) "D:/data").totalNumberOfFreeBytes.QuadPart < 2 ^ 64
      ∧ (Java_com_teletalk_jserver_util_SystemInfo_getDiskFreeSpaceNative plainEnv
          (reporting 0 (2 ^ 64 - 1) (2 ^ 63)) (some "D:/data") World.fresh).1 < -1 := by
  refine ⟨by decide, by decide⟩

/-- C5, as amended: provided a successful query reports `totalNumberOfFreeBytes`
below `2^63`, the function returns `-1` if and only if the characters of the
path were not obtained or the query failed; and whenever the characters are
obtained and the query succeeds, the returned value is non-negative and is not
`-1`. -/
theorem getDiskFreeSpaceNative_neg_one_iff_failure
    (env : JNIEnv) (os : Win32) (path : jstring) (w : World)
    (hF : ∀ p, env.GetStringUTFChars path = some p → (os p).result ≠ 0 →
      (os p).totalNumberOfFreeBytes.QuadPart < 2 ^ 63) :
    ((Java_com_teletalk_jserver_util_SystemInfo_getDiskFreeSpaceNative env os path w).1 = -1
        ↔ (env.GetStringUTFChars path = none
            ∨ ∃ p, env.GetStringUTFChars path = some p ∧ (os p).result = 0))
      ∧ (∀ p, env.GetStringUTFChars path = some p → (os p).result ≠ 0 →
          0 ≤ (Java_com_teletalk_jserver_util_SystemInfo_getDiskFreeSpaceNative env os path w).1
            ∧ (Java_com_teletalk_jserver_util_SystemInfo_getDiskFreeSpaceNative env os path w).1
                ≠ -1) := by
  have key : ∀ p, env.GetStringUTFChars path = some p → (os p).result ≠ 0 →
      (0 : Int) ≤
        (Java_com_teletalk_jserver_util_SystemInfo_getDiskFreeSpaceNative env os path w).1 := by
    intro p hpath hr
    rw [ret_of_success hpath hr w]
    exact toJlong_nonneg_of_lt (hF p hpath hr)
  have ne_of_nonneg : ∀ z : Int, 0 ≤ z → z ≠ -1 := fun z hz => by omega
  refine ⟨?_, fun p hpath hr => ⟨key p hpath hr, ne_of_nonneg _ (key p hpath hr)⟩⟩
  cases hpath : env.GetStringUTFChars path with
  | none =>
    constructor
    · intro _
      exact Or.inl rfl
    · intro _
      exact ret_of_null hpath os w
  | some p =>
    by_cases hr : (os p).result = 0
    · constructor
      · intro _
        exact Or.inr ⟨p, rfl, hr⟩
      · intro _
        exact ret_of_failure hpath hr w
    · constructor
      · intro h
        exact absurd h (ne_of_nonneg _ (key p hpath hr))
      · rintro (h | ⟨q, hq, hq0⟩)
        · exact absurd h (by simp)
        · have hqp : q = p := (Option.some.inj hq).symm
          exact absurd (hqp ▸ hq0) hr

/-- Witness for C5: a volume reporting 250 free bytes. -/
theorem getDiskFreeSpaceNative_neg_one_iff_failure_witness :
    ((Java_com_teletalk_jserver_util_SystemInfo_getDiskFreeSpaceNative plainEnv
          (reporting 100 1000 250) (some "D:/data") World.fresh).1 = -1
        ↔ (plainEnv.GetStringUTFChars (some "D:/data") = none
            ∨ ∃ p, plainEnv.GetStringUTFChars (some "D:/data") = some p
                ∧ (reporting 100 1000 250 p).result = 0))
      ∧ (∀ p, plainEnv.GetStringUTFChars (some "D:/data") = some p →
          (reporting 100 1000 250 p).result ≠ 0 →
          0 ≤ (Java_com_teletalk_jserver_util_SystemInfo_getDiskFreeSpaceNative plainEnv
                (reporting 100 1000 250) (some "D:/data") World.fresh).1
            ∧ (Java_com_teletalk_jserver_util_SystemInfo_getDiskFreeSpaceNative plainEnv
                (reporting 100 1000 250) (some "D:/data") World.fresh).1 ≠ -1) :=
  getDiskFreeSpaceNative_neg_one_iff_failure plainEnv (reporting 100 1000 250)
    (some "D:/data") World.fresh (fun _ _ _ => (by decide : (250 : Nat) < 2 ^ 63))

/-- Counterexample to C5 as stated: the characters are obtained, the query
succeeds reporting `totalNumberOfFreeBytes = 2^64 - 1`, and the function
returns `-1`. -/
theorem getDiskFreeSpaceNative_neg_one_on_success :
    plainEnv.GetStringUTFChars (some "D:/data") = some "D:/data"
      ∧ (reporting 0 (2 ^ 64 - 1) (2 ^ 64 - 1) "D:/data").result ≠ 0
      ∧ (reporting 0 (2 ^ 64 - 1) (2 ^ 64 - 1) "D:/data").totalNumberOfFreeBytes.QuadPart
          < 2 ^ 64
      ∧ (Java_com_teletalk_jserver_util_SystemInfo_getDiskFreeSpaceNative plainEnv
          (reporting 0 (2 ^ 64 - 1) (2 ^ 64 - 1)) (some "D:/data") World.fresh).1 = -1 := by
  refine ⟨rfl, by decide, by decide, by decide⟩

/-- C6, as amended: the empty path (a non-null string of length zero) gets no
treatment of its own.  When its characters are obtained, the function makes the
query for them, and, a successful query reporting `totalNumberOfFreeBytes = F`
with `F < 2^63`, it returns `-1` if and only if `GetDiskFreeSpaceEx` fails;
when the query succeeds it returns `F`. -/
theorem getDiskFreeSpaceNative_empty_path
    (env : JNIEnv) (os : Win32) (w : World) (p : LPSTR)
    (res : Int) (A T : ULARGE_INTEGER) (F : Nat)
    (hpath : env.GetStringUTFChars (some "") = some p)
    (hos : os p = ⟨res, A, T, ⟨F⟩⟩) (hF : res ≠ 0 → F < 2 ^ 63) :
    (Java_com_teletalk_jserver_util_SystemInfo_getDiskFreeSpaceNative env os (some "") w).2.diskQueries
        = w.diskQueries ++ [p]
      ∧ ((Java_com_teletalk_jserver_util_SystemInfo_getDiskFreeSpaceNative env os (some "") w).1
            = -1 ↔ res = 0)
      ∧ (res ≠ 0 →
          (Java_com_teletalk_jserver_util_SystemInfo_getDiskFreeSpaceNative env os (some "") w).1
            = (F : Int)) := by
  have hres : (os p).result = res := by rw [hos]
  have hfree : (os p).totalNumberOfFreeBytes.QuadPart = F := by rw [hos]
  have hsucc : res ≠ 0 →
      (Java_com_teletalk_jserver_util_SystemInfo_getDiskFreeSpaceNative env os (some "") w).1
        = (F : Int) := by
    intro h
    rw [ret_of_success hpath (by rw [hres]; exact h) w, hfree]
    exact toJlong_of_lt (hF h)
  refine ⟨?_, ⟨fun hret => ?_, fun h0 => ?_⟩, hsucc⟩
  · by_cases h0 : res = 0
    · rw [call_of_failure hpath (by rw [hres]; exact h0) w]
    · rw [call_of_success hpath (by rw [hres]; exact h0) w]
  · by_contra h
    have hFret : ((F : Nat) : Int) = -1 := (hsucc h).symm.trans hret
    have hnonneg : (0 : Int) ≤ (F : Int) := Int.ofNat_nonneg F
    omega
  · exact ret_of_failure hpath (by rw [hres]; exact h0) w

/-- Witness for C6: the empty path on a system whose query fails, and on a
system whose query succeeds reporting 300 free bytes. -/
theorem getDiskFreeSpaceNative_empty_path_witness :
    ((Java_com_teletalk_jserver_util_SystemInfo_getDiskFreeSpaceNative plainEnv
          (failing 7 8 9) (some "") World.fresh).1 = -1 ↔ (0 : Int) = 0)
      ∧ ((1 : Int) ≠ 0 →
          (Java_com_teletalk_jserver_util_SystemInfo_getDiskFreeSpaceNative plainEnv
            (reporting 10 2000 300) (some "") World.fresh).1 = ((300 : Nat) : Int))
      ∧ (Java_com_teletalk_jserver_util_SystemInfo_getDiskFreeSpaceNative plainEnv
          (reporting 10 2000 300) (some "") World.fresh).2.diskQueries
          = World.fresh.diskQueries ++ [""] :=
  ⟨(getDiskFreeSpaceNative_empty_path plainEnv (failing 7 8 9) World.fresh ""
      0 ⟨7⟩ ⟨8⟩ 9 rfl rfl (fun h => absurd rfl h)).2.1,
   (getDiskFreeSpaceNative_empty_path plainEnv (reporting 10 2000 300) World.fresh ""
      1 ⟨10⟩ ⟨2000⟩ 300 rfl rfl (fun _ => by decide)).2.2,
   (getDiskFreeSpaceNative_empty_path plainEnv (reporting 10 2000 300) World.fresh ""
      1 ⟨10⟩ ⟨2000⟩ 300 rfl rfl (fun _ => by decide)).1⟩

/-- Counterexample to C6 as stated: for the empty path, with a response of the
operating system in which the query succeeds reporting 250 free bytes, the
function returns 250 and not `-1`. -/
theorem getDiskFreeSpaceNative_empty_path_success :
    ("" : String).length = 0
      ∧ (Java_com_teletalk_jserver_util_SystemInfo_getDiskFreeSpaceNative plainEnv
          (reporting 100 1000 250) (some "") World.fresh).1 = 250
      ∧ (Java_com_teletalk_jserver_util_SystemInfo_getDiskFreeSpaceNative plainEnv
          (reporting 100 1000 250) (some "") World.fresh).1 ≠ -1 := by
  refine ⟨rfl, by decide, by decide⟩

/-- C7: when the characters of the path are obtained and `GetDiskFreeSpaceEx`
succeeds reporting `totalNumberOfFreeBytes = 0`, with any `freeBytesAvailable`
and `totalNumberOfBytes`, the function returns `0`, which is not `-1`. -/
theorem getDiskFreeSpaceNative_full_disk
    (env : JNIEnv) (os : Win32) (path : jstring) (w : World) (p : LPSTR)
    (res : Int) (A T : ULARGE_INTEGER)
    (hpath : env.GetStringUTFChars path = some p)
    (hos : os p = ⟨res, A, T, ⟨0⟩⟩) (hres : res ≠ 0) :
    (Java_com_teletalk_jserver_util_SystemInfo_getDiskFreeSpaceNative env os path w).1 = 0
      ∧ (Java_com_teletalk_jserver_util_SystemInfo_getDiskFreeSpaceNative env os path w).1
          ≠ -1 := by
  have hr : (os p).result ≠ 0 := by rw [hos]; exact hres
  have hret :
      (Java_com_teletalk_jserver_util_SystemInfo_getDiskFreeSpaceNative env os path w).1
        = (0 : Int) := by
    rw [ret_of_success hpath hr w, hos]
    rfl
  refine ⟨hret, ?_⟩
  rw [hret]
  decide

/-- Witness for C7: a full volume of 1000 bytes. -/
theorem getDiskFreeSpaceNative_full_disk_witness :
    (Java_com_teletalk_jserver_util_SystemInfo_getDiskFreeSpaceNative plainEnv
        (reporting 0 1000 0) (some "D:/data") World.fresh).1 = 0
      ∧ (Java_com_teletalk_jserver_util_SystemInfo_getDiskFreeSpaceNative plainEnv
          (reporting 0 1000 0) (some "D:/data") World.fresh).1 ≠ -1 :=
  getDiskFreeSpaceNative_full_disk plainEnv (reporting 0 1000 0) (some "D:/data")
    World.fresh "D:/data" 1 ⟨0⟩ ⟨1000⟩ rfl rfl (by decide)

/-- C8: for every module handle, reason code and reserved pointer, `DllMain`
returns `TRUE` (the non-zero value 1) and leaves the state as it was. -/
theorem DllMain_returns_TRUE (hModule ul_reason_for_call lpReserved : Nat) (w : World) :
    (DllMain hModule ul_reason_for_call lpReserved w).1 = TRUE
      ∧ (DllMain hModule ul_reason_for_call lpReserved w).1 = 1
      ∧ (DllMain hModule ul_reason_for_call lpReserved w).1 ≠ 0
      ∧ (DllMain hModule ul_reason_for_call lpReserved w).2 = w := by
  refine ⟨rfl, rfl, ?_, rfl⟩
  show (1 : Int) ≠ 0
  decide

/-- C9, evaluated where the code breaks it: a call with a path whose characters
are obtained starts with no string buffer held and ends with one buffer held,
when the query succeeds and when it fails alike, so the count after the call is
not the count before it; only the call whose characters are not obtained leaves
the count as it was. -/
theorem getDiskFreeSpaceNative_buffer_not_released :
    World.fresh.utfBuffers = 0
      ∧ (Java_com_teletalk_jserver_util_SystemInfo_getDiskFreeSpaceNative plainEnv
          (reporting 100 1000 250) (some "D:/data") World.fresh).2.utfBuffers = 1
      ∧ (Java_com_teletalk_jserver_util_SystemInfo_getDiskFreeSpaceNative plainEnv
          (failing 7 8 9) (some "D:/data") World.fresh).2.utfBuffers = 1
      ∧ (Java_com_teletalk_jserver_util_SystemInfo_getDiskFreeSpaceNative plainEnv
          (reporting 100 1000 250) (some "D:/data") World.fresh).2.utfBuffers
          ≠ World.fresh.utfBuffers
      ∧ (Java_com_teletalk_jserver_util_SystemInfo_getDiskFreeSpaceNative plainEnv
          (reporting 100 1000 250) none World.fresh).2.utfBuffers
          = World.fresh.utfBuffers := by
  refine ⟨rfl, by decide, by decide, by decide, by decide⟩

/-- C10: when the characters of the path are obtained and the query succeeds
reporting the unsigned 64-bit figure `F` as `totalNumberOfFreeBytes`, the
returned value is `F` if `F < 2^63` and `F - 2^64` otherwise; it is
non-negative exactly when `F < 2^63`; and for `F = 2^64 - 1` it is `-1`, the
value that a failed query returns. -/
theorem getDiskFreeSpaceNative_twos_complement
    (env : JNIEnv) (os : Win32) (path : jstring) (w : World) (p : LPSTR)
    (res : Int) (A T : ULARGE_INTEGER) (F : Nat)
    (hpath : env.GetStringUTFChars path = some p)
    (hos : os p = ⟨res, A, T, ⟨F⟩⟩) (hres : res ≠ 0) (hF : F < 2 ^ 64) :
    (Java_com_teletalk_jserver_util_SystemInfo_getDiskFreeSpaceNative env os path w).1
        = (if F < 2 ^ 63 then (F : Int) else (F : Int) - 2 ^ 64)
      ∧ (0 ≤ (Java_com_teletalk_jserver_util_SystemInfo_getDiskFreeSpaceNative env os path w).1
          ↔ F < 2 ^ 63)
      ∧ (F = 2 ^ 64 - 1 →
          (Java_com_teletalk_jserver_util_SystemInfo_getDiskFreeSpaceNative env os path w).1 = -1
            ∧ ∀ os2 : Win32, (os2 p).result = 0 →
                (Java_com_teletalk_jserver_util_SystemInfo_getDiskFreeSpaceNative env os path w).1
                  = (Java_com_teletalk_jserver_util_SystemInfo_getDiskFreeSpaceNative
                      env os2 path w).1) := by
  have hr : (os p).result ≠ 0 := by rw [hos]; exact hres
  have hret :
      (Java_com_teletalk_jserver_util_SystemInfo_getDiskFreeSpaceNative env os path w).1
        = (if F < 2 ^ 63 then (F : Int) else (F : Int) - 2 ^ 64) := by
    rw [ret_of_success hpath hr w, hos]
    by_cases h : F < 2 ^ 63
    · rw [if_pos h]
      exact toJlong_of_lt h
    · rw [if_neg h]
      exact toJlong_of_ge (Nat.le_of_not_lt h) hF
  have hlast : F = 2 ^ 64 - 1 →
      (Java_com_teletalk_jserver_util_SystemInfo_getDiskFreeSpaceNative env os path w).1
        = (-1 : Int) := by
    intro h
    rw [hret, h]
    decide
  refine ⟨hret, ?_, fun h => ⟨hlast h, fun os2 h2 => ?_⟩⟩
  · rw [hret]
    by_cases h : F < 2 ^ 63
    · rw [if_pos h]
      exact ⟨fun _ => h, fun _ => Int.ofNat_nonneg F⟩
    · rw [if_neg h]
      constructor
      · intro h0
        have h0i : (0 : Int) ≤ (F : Int) - 2 ^ 64 := h0
        have hF2 : (F : Int) < 2 ^ 64 := by exact_mod_cast hF
        omega
      · intro h1
        exact absurd h1 h
  · rw [hlast h, ret_of_failure hpath h2 w]

/-- Witness for C10: a successful query reporting `2^64 - 1` free bytes. -/
theorem getDiskFreeSpaceNative_twos_complement_witness :
    (Java_com_teletalk_jserver_util_SystemInfo_getDiskFreeSpaceNative plainEnv
        (reporting 5 (2 ^ 64 - 1) (2 ^ 64 - 1)) (some "D:/data") World.fresh).1 = -1
      ∧ (Java_com_teletalk_jserver_util_SystemInfo_getDiskFreeSpaceNative plainEnv
          (reporting 5 (2 ^ 64 - 1) (2 ^ 64 - 1)) (some "D:/data") World.fresh).1
          = (Java_com_teletalk_jserver_util_SystemInfo_getDiskFreeSpaceNative plainEnv
              (failing 7 8 9) (some "D:/data") World.fresh).1 :=
  ⟨((getDiskFreeSpaceNative_twos_complement plainEnv
        (reporting 5 (2 ^ 64 - 1) (2 ^ 64 - 1)) (some "D:/data") World.fresh "D:/data"
        1 ⟨5⟩ ⟨2 ^ 64 - 1⟩ (2 ^ 64 - 1) rfl rfl (by decide) (by decide)).2.2 rfl).1,
   ((getDiskFreeSpaceNative_twos_complement plainEnv
        (reporting 5 (2 ^ 64 - 1) (2 ^ 64 - 1)) (some "D:/data") World.fresh "D:/data"
        1 ⟨5⟩ ⟨2 ^ 64 - 1⟩ (2 ^ 64 - 1) rfl rfl (by decide) (by decide)).2.2 rfl).2
      (failing 7 8 9) rfl⟩

end JServer
